import Mathlib

/-!
Shallow embedding of `telegram_clima_agenda.py`: a daily weather + calendar
notification job.  Wall-clock time is modelled in integer microseconds; a
timezone is modelled by its UTC-offset behaviour; raw calendar events, the
today window, agenda filtering/sorting and the message formatters are
translated function-by-function from the Python source.
-/

namespace ClimaAgenda

/-! Time model -/

def usPerSecond : Int := 1000000

def usPerMinute : Int := 60 * usPerSecond

def usPerHour : Int := 60 * usPerMinute

def usPerDay : Int := 24 * usPerHour

/-- A timezone as the `dateutil.tz` objects used by the script behave:
`fromWall w` is the UTC offset (in microseconds) that `tzinfo.utcoffset`
reports for a datetime whose naive wall-clock reading is `w`; `fromUtc u`
is the offset that `fromutc` applies when converting the UTC instant `u`
into this zone.  A real IANA zone supplies both views of its offset
table. -/
structure Zone where
  fromWall : Int → Int
  fromUtc : Int → Int

/-- The zone `tz.UTC`: offset constantly zero. -/
def utcZone : Zone := ⟨fun _ => 0, fun _ => 0⟩

/-- An aware `datetime`: the naive wall-clock reading in microseconds
since the zone's calendar epoch midnight, together with its `tzinfo`. -/
structure DT where
  wall : Int
  zone : Zone

/-- The UTC instant an aware datetime denotes: wall reading minus the
zone's offset at that wall reading (this is how CPython computes it). -/
def DT.utcInstant (d : DT) : Int := d.wall - d.zone.fromWall d.wall

/-- Python `d.astimezone(z)`: convert the UTC instant of `d` into zone
`z` via `z.fromutc`. -/
def DT.astimezone (d : DT) (z : Zone) : DT :=
  { wall := d.utcInstant + z.fromUtc d.utcInstant, zone := z }

/-- Python aware-datetime subtraction `a - b` between operands sharing
the same `tzinfo` object — the case at every subtraction in this script
(both window bounds carry `tzlocal`, both event bounds come out of
`astimezone(tzlocal)`): CPython then returns the naive wall-clock
difference without consulting the offsets (here in microseconds). -/
def DT.sub (a b : DT) : Int := a.wall - b.wall

/-- Python aware-datetime comparison `a < b` between operands sharing
the same `tzinfo` object (the case at line 132, where every operand
carries `tzlocal`): CPython compares the naive wall readings. -/
def DT.ltb (a b : DT) : Bool := decide (a.wall < b.wall)

def wallHour (w : Int) : Int := (w.emod usPerDay).ediv usPerHour

def wallMinute (w : Int) : Int := (w.emod usPerHour).ediv usPerMinute

def wallSecond (w : Int) : Int := (w.emod usPerMinute).ediv usPerSecond

def wallMicrosecond (w : Int) : Int := w.emod usPerSecond

/-- Python `d.replace(hour=0, minute=0, second=0, microsecond=0)`:
zero the sub-day wall-clock components, keeping the date and `tzinfo`. -/
def replaceMidnight (d : DT) : DT :=
  { wall := usPerDay * (d.wall.ediv usPerDay), zone := d.zone }

/-- Python `d + timedelta(...)`: adds to the wall clock, keeping `tzinfo`. -/
def addDelta (d : DT) (delta : Int) : DT :=
  { wall := d.wall + delta, zone := d.zone }

/-- The local day window of `fetch_ics_events_today` (its `start`/`end`
variables). -/
structure TimeWindow where
  start : DT
  stop : DT

/-- Lines 100-102 of the source: `start = dt.datetime.now(tzlocal).replace(
hour=0, minute=0, second=0, microsecond=0)` and `end = start +
dt.timedelta(days=1)`.  `nowWall` is the wall-clock reading of
`datetime.now(tzlocal)`. -/
def todayWindow (tzlocal : Zone) (nowWall : Int) : TimeWindow :=
  let start := replaceMidnight { wall := nowWall, zone := tzlocal }
  { start := start, stop := addDelta start usPerDay }

/-! Raw calendar events and normalization -/

/-- A timestamp value as `to_local_dt` receives it: an Arrow object or a
datetime, either way carrying a wall-clock reading and an optional
`tzinfo` (`none` models a naive timestamp). -/
structure TimeVal where
  wall : Int
  zone : Option Zone

/-- Lines 104-112 of the source, `to_local_dt`: unwrap Arrow to datetime,
assume UTC when the timestamp is naive, then `astimezone(tzlocal)`. -/
def to_local_dt (tzlocal : Zone) (x : TimeVal) : DT :=
  let d : DT :=
    match x.zone with
    | none => { wall := x.wall, zone := utcZone }
    | some zx => { wall := x.wall, zone := zx }
  DT.astimezone d tzlocal

/-- A timestamp field as it occurs in the raw iCalendar text: either a
parseable value or a malformed one. -/
inductive Stamp where
  | good : TimeVal → Stamp
  | malformed : Stamp

/-- One event record of a fetched iCalendar text, before parsing. -/
structure RawEventData where
  begin_ : Option Stamp
  end_ : Option Stamp
  name : String
  all_day : Bool
  location : Option String

/-- A successfully parsed event (an `ics` `Event` object). -/
structure RawEvent where
  begin_ : Option TimeVal
  end_ : Option TimeVal
  name : String
  all_day : Bool
  location : Option String

def parseStamp : Option Stamp → Option (Option TimeVal)
  | none => some none
  | some (Stamp.good v) => some (some v)
  | some Stamp.malformed => none

/-- Modelled from the spec: the calendar-parse collaborator
(`Calendar(r.text)` of the `ics` library, line 122).  Per the spec's
boundary contract it returns the full event list of the source or fails
as a whole, with no partial results; a malformed timestamp anywhere in
the text fails the whole parse. -/
def parseCalendar : List RawEventData → Option (List RawEvent)
  | [] => some []
  | e :: rest => do
      let b ← parseStamp e.begin_
      let t ← parseStamp e.end_
      let others ← parseCalendar rest
      pure ({ begin_ := b, end_ := t, name := e.name, all_day := e.all_day,
              location := e.location } :: others)

/-- Lines 120-122 of the source: `requests.get` + `raise_for_status` +
`Calendar(r.text)`, all inside one `try`.  `net` is the network
collaborator (`none` models a fetch/HTTP error). -/
def fetchSource (net : String → Option (List RawEventData)) (url : String) :
    Option (List RawEvent) :=
  match net url with
  | none => none
  | some txt => parseCalendar txt

/-- The tuples `(s, t, e.name, e.all_day, location)` appended on line 133. -/
structure NormalizedEvent where
  s : DT
  t : DT
  name : String
  all_day : Bool
  location : Option String

/-- Lines 126-133 of the source, the body of `for e in cal.events`:
skip when `e.begin is None`; `s = to_local_dt(e.begin)`;
`t = to_local_dt(e.end or e.begin)`; keep iff `t > start and s < end`. -/
def processEvent (tzlocal : Zone) (wstart wstop : DT) (e : RawEvent) :
    Option NormalizedEvent :=
  match e.begin_ with
  | none => none
  | some b =>
      let s := to_local_dt tzlocal b
      let t := to_local_dt tzlocal (e.end_.getD b)
      if DT.ltb wstart t && DT.ltb s wstop then
        some { s := s, t := t, name := e.name, all_day := e.all_day,
               location := e.location }
      else none

/-- Python string `.strip` family: drop matching characters from both
ends. -/
def stripEnds (p : Char → Bool) (l : List Char) : List Char :=
  ((l.dropWhile p).reverse.dropWhile p).reverse

def pyStrip (s : String) : String := String.mk (stripEnds Char.isWhitespace s.data)

def pyStripChar (c : Char) (s : String) : String :=
  String.mk (stripEnds (fun a => a = c) s.data)

/-- Line 116 of the source: `(raw or "").strip().strip(dquote).strip(quote)`. -/
def cleanUrl (raw : String) : String :=
  pyStripChar (Char.ofNat 39) (pyStripChar '"' (pyStrip raw))

/-- Lines 114-133 of the source: the `for raw in urls` loop, collecting
the kept normalized events in discovery order.  A source whose URL is
empty after cleaning, or whose fetch/parse fails, is skipped
(`continue`). -/
def collectEvents (net : String → Option (List RawEventData)) (tzlocal : Zone)
    (wstart wstop : DT) : List String → List NormalizedEvent
  | [] => []
  | raw :: rest =>
      let url := cleanUrl raw
      if url = "" then collectEvents net tzlocal wstart wstop rest
      else
        match fetchSource net url with
        | none => collectEvents net tzlocal wstart wstop rest
        | some evs =>
            evs.filterMap (processEvent tzlocal wstart wstop) ++
              collectEvents net tzlocal wstart wstop rest

/-- Stable ascending insertion by the `s` component, modelling Python's
stable `events.sort(key=lambda x: x[0])`. -/
def insertByStart (e : NormalizedEvent) : List NormalizedEvent → List NormalizedEvent
  | [] => [e]
  | f :: rest =>
      if f.s.wall < e.s.wall then f :: insertByStart e rest
      else e :: f :: rest

def sortByStart (l : List NormalizedEvent) : List NormalizedEvent :=
  l.foldr insertByStart []

/-- Lines 98-136 of the source, `fetch_ics_events_today`: compute the
local day window, collect the kept events from every source, sort by
start.  `tzlocal` stands for `tz.gettz(tzname)` and `nowWall` for the
wall clock of `datetime.now(tzlocal)`. -/
def fetch_ics_events_today (net : String → Option (List RawEventData))
    (urls : List String) (tzlocal : Zone) (nowWall : Int) : List NormalizedEvent :=
  let w := todayWindow tzlocal nowWall
  sortByStart (collectEvents net tzlocal w.start w.stop urls)

/-- Follows the spec's words, for comparison with the code: §4.3 step 2,
"Normalize every RawEvent via EventNormalizer; drop events that fail
normalization" — an event with a malformed timestamp is dropped
individually and the rest of its source is kept. -/
def specNormalizeSource (l : List RawEventData) : List RawEvent :=
  l.filterMap (fun e =>
    match parseStamp e.begin_, parseStamp e.end_ with
    | some b, some t =>
        some { begin_ := b, end_ := t, name := e.name, all_day := e.all_day,
               location := e.location }
    | _, _ => none)

/-- Follows the spec's words, for comparison with the code: the agenda
builder with per-event drop of normalization failures (instead of the
code's whole-source parse failure). -/
def specCollectEvents (net : String → Option (List RawEventData)) (tzlocal : Zone)
    (wstart wstop : DT) : List String → List NormalizedEvent
  | [] => []
  | raw :: rest =>
      let url := cleanUrl raw
      if url = "" then specCollectEvents net tzlocal wstart wstop rest
      else
        match net url with
        | none => specCollectEvents net tzlocal wstart wstop rest
        | some txt =>
            (specNormalizeSource txt).filterMap (processEvent tzlocal wstart wstop) ++
              specCollectEvents net tzlocal wstart wstop rest

/-- Follows the spec's words, for comparison with the code: see
`specCollectEvents`. -/
def specFetchIcsEventsToday (net : String → Option (List RawEventData))
    (urls : List String) (tzlocal : Zone) (nowWall : Int) : List NormalizedEvent :=
  let w := todayWindow tzlocal nowWall
  sortByStart (specCollectEvents net tzlocal w.start w.stop urls)

/-! Agenda rendering -/

/-- Python `sep.join(lines)`. -/
def pyJoin (sep : String) : List String → String
  | [] => ""
  | [a] => a
  | a :: b :: rest => a ++ sep ++ pyJoin sep (b :: rest)

/-- Python two-digit zero padding, as `strftime` does for `%H` and `%M`. -/
def pad2 (n : Int) : String := if n < 10 then "0" ++ toString n else toString n

/-- Python `s.strftime("%H:%M")` on the wall clock of `s` (line 146). -/
def fmtHM (d : DT) : String := pad2 (wallHour d.wall) ++ ":" ++ pad2 (wallMinute d.wall)

/-- Line 150 of the source: `where = " @ loc" if loc else ""` — an absent
or empty location renders nothing (Python truthiness). -/
def locText : Option String → String
  | none => ""
  | some l => if l = "" then "" else " @ " ++ l

/-- Lines 142-151 of the source, the loop body of `format_agenda`.
`(t - s)` is a same-tzinfo subtraction (both bounds carry `tzlocal`), so
it is the wall-clock difference; `total_seconds() // 60` is modelled
exactly as the floor of that microsecond difference over a minute (the
float detour of `total_seconds` is exact at every realistic magnitude);
`divmod(mins, 60)` is Lean's `fdiv`/`fmod` pair; `if hh` is `hh ≠ 0`. -/
def renderEvent (ev : NormalizedEvent) : String :=
  if ev.all_day then "• (Todo el día) — *" ++ ev.name ++ "*"
  else
    let h1 := fmtHM ev.s
    let mins := (DT.sub ev.t ev.s).fdiv usPerMinute
    let hh := mins.fdiv 60
    let mm := mins.fmod 60
    let dstr := if hh ≠ 0 then toString hh ++ "h " ++ toString mm ++ "m"
      else toString mm ++ "m"
    h1 ++ " (" ++ dstr ++ ") — *" ++ ev.name ++ "*" ++ locText ev.location

/-- Lines 138-152 of the source, `format_agenda`. -/
def format_agenda (events : List NormalizedEvent) : String :=
  if events.isEmpty then "🗓️ *Agenda de hoy*\n(No hay eventos)\n"
  else
    pyJoin "\n" ("🗓️ *Agenda de hoy*" :: events.map renderEvent) ++ "\n"

/-! Weather data and rendering -/

/-- The `daily` block returned by the weather provider (`r.json()["daily"]`).
Each field is `none` when the key is absent (Python `KeyError`); list
entries are `none` when the JSON value is `null`.  Numeric values are
modelled as integers. -/
structure Daily where
  temperature_2m_min : Option (List (Option Int))
  temperature_2m_max : Option (List (Option Int))
  precipitation_probability_max : Option (List (Option Int))
  sunrise : Option (List (Option String))
  sunset : Option (List (Option String))
  weathercode : Option (List (Option Int))

/-- Lines 35-43 of the source: the `WMO_DESC` table. -/
def WMO_DESC : List (Int × (String × String)) :=
  [(0, ("Despejado", "☀️")), (1, ("Mayormente despejado", "🌤️")),
   (2, ("Parcialmente nublado", "⛅")), (3, ("Nublado", "☁️")),
   (45, ("Niebla", "🌫️")), (48, ("Niebla escarchada", "🌫️")),
   (51, ("Llovizna ligera", "🌦️")), (53, ("Llovizna", "🌦️")),
   (55, ("Llovizna fuerte", "🌧️")), (61, ("Lluvia ligera", "🌧️")),
   (63, ("Lluvia", "🌧️")), (65, ("Lluvia fuerte", "🌧️")),
   (71, ("Nieve ligera", "🌨️")), (73, ("Nieve", "🌨️")),
   (75, ("Nieve fuerte", "❄️")), (80, ("Chubascos", "🌧️")),
   (81, ("Chubascos", "🌧️")), (82, ("Chubascos fuertes", "⛈️")),
   (95, ("Tormentas", "⛈️")), (96, ("Tormentas con granizo", "⛈️")),
   (99, ("Tormentas con granizo", "⛈️"))]

/-- Python `WMO_DESC.get(wcode, ("", ""))`; the key may be `None`. -/
def wmoGet : Option Int → String × String
  | none => ("", "")
  | some k => (WMO_DESC.lookup k).getD ("", "")

/-- Python `str` of a JSON number-or-null, as an f-string renders it. -/
def pyShow : Option Int → String
  | none => "None"
  | some n => toString n

/-- Python `s[-5:]`. -/
def pyLast5 (s : String) : String := String.mk (s.data.reverse.take 5).reverse

/-- Lines 81-95 of the source: one iteration of the day loop of
`nice_weather_text_2days`.  Returns `none` when the `try` block raises
(`KeyError` for a missing field, `IndexError` for a missing entry,
`TypeError` for slicing a `null` sunrise/sunset) — the day is skipped. -/
def dayBlock (data : Daily) (idx : Nat) (label : String) : Option String := do
  let tminL ← data.temperature_2m_min
  let tmin ← tminL.get? idx
  let tmaxL ← data.temperature_2m_max
  let tmax ← tmaxL.get? idx
  let ppL ← data.precipitation_probability_max
  let pp ← ppL.get? idx
  let srL ← data.sunrise
  let srE ← srL.get? idx
  let sr ← srE.map pyLast5
  let ssL ← data.sunset
  let ssE ← ssL.get? idx
  let ss ← ssE.map pyLast5
  let wcL ← data.weathercode
  let wcode ← wcL.get? idx
  let de := wmoGet wcode
  pure ("\n*" ++ label ++ "* — " ++ de.2 ++ " " ++ de.1 ++ "\n" ++
        "Temp: " ++ pyShow tmin ++ "°C – " ++ pyShow tmax ++ "°C • Precip.: " ++
        pyShow pp ++ "%\n" ++ "Amanecer: " ++ sr ++ "  Atardecer: " ++ ss)

def optList : Option String → List String
  | none => []
  | some b => [b]

/-- Lines 77-96 of the source, `nice_weather_text_2days`: the header
line, then the "Hoy" and "Mañana" paragraphs when their extraction
succeeds, joined with a newline. -/
def nice_weather_text_2days (cityShown : String) (data : Daily) : String :=
  pyJoin "\n" (("🌦️ *Clima — " ++ cityShown ++ "*") ::
    (optList (dayBlock data 0 "Hoy") ++ optList (dayBlock data 1 "Mañana")))

/-! Assembly and delivery -/

/-- Line 178 of the source: the umbrella warning banner. -/
def bannerText : String :=
  "⚠️ *Probabilidad alta de lluvia (≥50%)*. Considerá llevar paraguas.\n\n"

/-- Python `daily["precipitation_probability_max"][i]`: `none` when the
lookup raises (`KeyError`/`IndexError`), otherwise the JSON value (which
may itself be `null`). -/
def ppLookup (daily : Daily) (i : Nat) : Option (Option Int) :=
  match daily.precipitation_probability_max with
  | none => none
  | some l => l.get? i

/-- Python `pp is not None and pp >= 50`. -/
def ppCond : Option Int → Bool
  | none => false
  | some v => decide (50 ≤ v)

/-- Lines 173-180 of the source: the `try` block that prepends the
warning banner; any exception in it is swallowed (`except: pass`), so a
failed lookup leaves the message unchanged. -/
def applyBanner (daily : Daily) (msg : String) : String :=
  match ppLookup daily 0, ppLookup daily 1 with
  | some ppHoy, some ppMan =>
      if ppCond ppHoy || ppCond ppMan then bannerText ++ msg else msg
  | _, _ => msg

/-- Line 171 of the source: `msg = nice_weather_text_2days(...) + "\n\n"
+ format_agenda(agenda)`. -/
def assembleMsg (cityShown : String) (daily : Daily) (agenda : List NormalizedEvent) :
    String :=
  nice_weather_text_2days cityShown daily ++ "\n\n" ++ format_agenda agenda

/-- Lines 169-182 of the source, the success path of `run`: the sequence
of texts handed to `send_telegram`, in order.  Line 172 sends the
assembled message, lines 173-180 possibly prepend the banner, line 182
sends again. -/
def runSends (cityShown : String) (daily : Daily) (agenda : List NormalizedEvent) :
    List String :=
  let msg := assembleMsg cityShown daily agenda
  [msg, applyBanner daily msg]

/-! Concrete fixtures used by the closed instance theorems -/

/-- A fixed-offset zone (UTC-3, the script's default region), whose two
offset views trivially cohere. -/
def minus3Zone : Zone := ⟨fun _ => -(3 * usPerHour), fun _ => -(3 * usPerHour)⟩

/-- An event whose normalized end lands exactly on the window start. -/
def evC1 : RawEvent :=
  { begin_ := some { wall := -usPerHour, zone := none },
    end_ := some { wall := 0, zone := none },
    name := "Borde", all_day := false, location := none }

/-- An event with a begin timestamp but no end timestamp. -/
def evC8 : RawEvent :=
  { begin_ := some { wall := 9 * usPerHour, zone := none }, end_ := none,
    name := "Cita", all_day := false, location := none }

/-- The normalized form `processEvent` produces for `evC8` in a UTC
day-zero window. -/
def nevC8 : NormalizedEvent :=
  { s := { wall := 9 * usPerHour, zone := utcZone },
    t := { wall := 9 * usPerHour, zone := utcZone },
    name := "Cita", all_day := false, location := none }

/-- A daily block whose today precipitation probability is 80%. -/
def dailyC9 : Daily :=
  ⟨some [some 10, some 12], some [some 20, some 22], some [some 80, some 10],
   some [some "06:30", some "06:31"], some [some "19:30", some "19:31"],
   some [some 95, some 1]⟩

/-- A well-formed raw event, 09:00-10:00 naive UTC. -/
def goodData : RawEventData :=
  { begin_ := some (Stamp.good { wall := 9 * usPerHour, zone := none }),
    end_ := some (Stamp.good { wall := 10 * usPerHour, zone := none }),
    name := "Bueno", all_day := false, location := none }

/-- A raw event whose begin timestamp is malformed. -/
def badData : RawEventData :=
  { begin_ := some Stamp.malformed, end_ := none,
    name := "Malo", all_day := false, location := none }

/-- A network collaborator serving one good and one malformed event at
every URL. -/
def netC2 : String → Option (List RawEventData) := fun _ => some [goodData, badData]

/-- A network collaborator that fails for the URL "bad" and serves one
good event elsewhere. -/
def netC4 : String → Option (List RawEventData) :=
  fun u => if u = "bad" then none else some [goodData]

/-! Theorems -/

/-- C3: the claim says the assembled notification is delivered by exactly
one send operation per successful run; the code performs two sends (lines
172 and 182), so every successful run hands two texts to the messaging
channel. -/
theorem c3_two_sends_per_run (cityShown : String) (daily : Daily)
    (agenda : List NormalizedEvent) : (runSends cityShown daily agenda).length = 2 :=
  rfl

/-- C5: for every timezone and every value of "now", the computed window
satisfies `window.end - window.start == 24h` exactly — both bounds carry
the same `tzinfo`, so the Python subtraction is the naive wall
difference, one full day, on every day including DST-transition days —
and the window start has zero hour, minute, second and microsecond
components in the local zone. -/
theorem c5_window_invariants (tzlocal : Zone) (nowWall : Int) :
    DT.sub (todayWindow tzlocal nowWall).stop (todayWindow tzlocal nowWall).start
        = usPerDay ∧
    wallHour (todayWindow tzlocal nowWall).start.wall = 0 ∧
    wallMinute (todayWindow tzlocal nowWall).start.wall = 0 ∧
    wallSecond (todayWindow tzlocal nowWall).start.wall = 0 ∧
    wallMicrosecond (todayWindow tzlocal nowWall).start.wall = 0 := by
  have hW : (todayWindow tzlocal nowWall).start.wall
      = usPerDay * (nowWall.ediv usPerDay) := rfl
  have hS : (todayWindow tzlocal nowWall).stop.wall
      = usPerDay * (nowWall.ediv usPerDay) + usPerDay := rfl
  refine ⟨?_, ?_, ?_, ?_, ?_⟩
  · unfold DT.sub
    rw [hS, hW]
    ring
  · rw [hW]
    unfold wallHour
    have h0 : (usPerDay * nowWall.ediv usPerDay).emod usPerDay = 0 :=
      Int.mul_emod_right usPerDay (nowWall.ediv usPerDay)
    rw [h0]
    exact Int.zero_ediv usPerHour
  · rw [hW]
    unfold wallMinute
    have h : usPerDay * nowWall.ediv usPerDay
        = usPerHour * (24 * nowWall.ediv usPerDay) := by unfold usPerDay; ring
    have h0 : (usPerHour * (24 * nowWall.ediv usPerDay)).emod usPerHour = 0 :=
      Int.mul_emod_right usPerHour (24 * nowWall.ediv usPerDay)
    rw [h, h0]
    exact Int.zero_ediv usPerMinute
  · rw [hW]
    unfold wallSecond
    have h : usPerDay * nowWall.ediv usPerDay
        = usPerMinute * (1440 * nowWall.ediv usPerDay) := by
      unfold usPerDay usPerHour; ring
    have h0 : (usPerMinute * (1440 * nowWall.ediv usPerDay)).emod usPerMinute = 0 :=
      Int.mul_emod_right usPerMinute (1440 * nowWall.ediv usPerDay)
    rw [h, h0]
    exact Int.zero_ediv usPerSecond
  · rw [hW]
    unfold wallMicrosecond
    have h : usPerDay * nowWall.ediv usPerDay
        = usPerSecond * (86400 * nowWall.ediv usPerDay) := by
      unfold usPerDay usPerHour usPerMinute; ring
    have h0 : (usPerSecond * (86400 * nowWall.ediv usPerDay)).emod usPerSecond = 0 :=
      Int.mul_emod_right usPerSecond (86400 * nowWall.ediv usPerDay)
    rw [h, h0]

/-- C7: a naive timestamp is given `tz.UTC` before conversion and a zoned
one is converted directly; whenever the target zone's two offset views
cohere (as a real zone's do), the conversion preserves the instant, and
in the naive case the instant is the raw wall reading taken as UTC. -/
theorem c7_naive_assumed_utc (tzlocal : Zone) (x : TimeVal) :
    (x.zone = none →
      to_local_dt tzlocal x = DT.astimezone { wall := x.wall, zone := utcZone } tzlocal) ∧
    (∀ zx, x.zone = some zx →
      to_local_dt tzlocal x = DT.astimezone { wall := x.wall, zone := zx } tzlocal) ∧
    (to_local_dt tzlocal x).zone = tzlocal ∧
    ((∀ u, tzlocal.fromWall (u + tzlocal.fromUtc u) = tzlocal.fromUtc u) →
      (x.zone = none → (to_local_dt tzlocal x).utcInstant = x.wall) ∧
      (∀ zx, x.zone = some zx →
        (to_local_dt tzlocal x).utcInstant
          = DT.utcInstant { wall := x.wall, zone := zx })) := by
  cases hx : x.zone with
  | none =>
      have h1 : to_local_dt tzlocal x
          = DT.astimezone { wall := x.wall, zone := utcZone } tzlocal := by
        unfold to_local_dt
        rw [hx]
      refine ⟨fun _ => h1, ?_, ?_, ?_⟩
      · intro zx h
        simp at h
      · rw [h1]
        rfl
      · intro hco
        refine ⟨fun _ => ?_, ?_⟩
        · rw [h1]
          simp only [DT.astimezone, DT.utcInstant, utcZone]
          rw [hco]
          omega
        · intro zx h
          simp at h
  | some zx0 =>
      have h1 : to_local_dt tzlocal x
          = DT.astimezone { wall := x.wall, zone := zx0 } tzlocal := by
        unfold to_local_dt
        rw [hx]
      refine ⟨?_, ?_, ?_, ?_⟩
      · intro h
        simp at h
      · intro zx h
        injection h with h2
        subst h2
        exact h1
      · rw [h1]
        rfl
      · intro hco
        refine ⟨?_, ?_⟩
        · intro h
          simp at h
        · intro zx h
          injection h with h2
          subst h2
          rw [h1]
          simp only [DT.astimezone, DT.utcInstant]
          rw [hco]
          omega

/-- Witness for C7: a concrete naive timestamp converted into a concrete
fixed-offset zone keeps its wall reading as its UTC instant. -/
theorem c7_naive_assumed_utc_witness :
    (to_local_dt minus3Zone { wall := 5 * usPerHour, zone := none }).utcInstant
      = 5 * usPerHour :=
  ((c7_naive_assumed_utc minus3Zone { wall := 5 * usPerHour, zone := none }).2.2.2
    (fun _ => rfl)).1 rfl

/-- C10: for every city name and every forecast input — including one
where both day paragraphs are skipped — the weather text starts with the
fixed header line containing the shown city, and whatever follows the
header starts on a new line. -/
theorem c10_header_always_first (cityShown : String) (data : Daily) :
    ∃ rest, nice_weather_text_2days cityShown data
        = ("🌦️ *Clima — " ++ cityShown ++ "*") ++ rest ∧
      (rest = "" ∨ ∃ r2, rest = "\n" ++ r2) := by
  unfold nice_weather_text_2days
  cases h0 : dayBlock data 0 "Hoy" with
  | none =>
      cases h1 : dayBlock data 1 "Mañana" with
      | none =>
          refine ⟨"", ?_, Or.inl rfl⟩
          simp [optList, pyJoin]
      | some b1 =>
          refine ⟨"\n" ++ b1, ?_, Or.inr ⟨b1, rfl⟩⟩
          simp only [optList, List.nil_append, pyJoin]
          rw [String.append_assoc]
  | some b0 =>
      cases h1 : dayBlock data 1 "Mañana" with
      | none =>
          refine ⟨"\n" ++ b0, ?_, Or.inr ⟨b0, rfl⟩⟩
          simp only [optList, List.append_nil, pyJoin]
          rw [String.append_assoc]
      | some b1 =>
          refine ⟨"\n" ++ (b0 ++ "\n" ++ b1), ?_, Or.inr ⟨b0 ++ "\n" ++ b1, rfl⟩⟩
          simp only [optList, List.cons_append, List.nil_append, pyJoin]
          rw [String.append_assoc]

/-- C1: an event whose begin parsed is kept by the agenda filter iff its
normalized end is strictly after the window start and its normalized
start is strictly before the window end (same-tzinfo aware-datetime
comparisons, i.e. of the naive wall readings); an event ending exactly
at the window start is excluded, one starting exactly at the window end
is excluded, and one straddling the window end strictly is included. -/
theorem c1_half_open_intersection (tzlocal : Zone) (wstart wstop : DT)
    (e : RawEvent) (b : TimeVal) (hb : e.begin_ = some b) :
    ((processEvent tzlocal wstart wstop e).isSome ↔
      (wstart.wall < (to_local_dt tzlocal (e.end_.getD b)).wall ∧
        (to_local_dt tzlocal b).wall < wstop.wall)) ∧
    ((to_local_dt tzlocal (e.end_.getD b)).wall = wstart.wall →
      processEvent tzlocal wstart wstop e = none) ∧
    ((to_local_dt tzlocal b).wall = wstop.wall →
      processEvent tzlocal wstart wstop e = none) ∧
    (wstart.wall < wstop.wall →
      (to_local_dt tzlocal b).wall < wstop.wall →
      wstop.wall < (to_local_dt tzlocal (e.end_.getD b)).wall →
      (processEvent tzlocal wstart wstop e).isSome) := by
  have hmain : (processEvent tzlocal wstart wstop e).isSome = true ↔
      (wstart.wall < (to_local_dt tzlocal (e.end_.getD b)).wall ∧
        (to_local_dt tzlocal b).wall < wstop.wall) := by
    unfold processEvent
    rw [hb]
    simp only [DT.ltb, Bool.and_eq_true, decide_eq_true_eq]
    split_ifs with h
    · simp [h]
    · simp [h]
  refine ⟨hmain, ?_, ?_, ?_⟩
  · intro h
    cases hp : processEvent tzlocal wstart wstop e with
    | none => rfl
    | some ev =>
        exfalso
        have hs : (processEvent tzlocal wstart wstop e).isSome = true := by
          rw [hp]
          rfl
        have h2 := hmain.mp hs
        omega
  · intro h
    cases hp : processEvent tzlocal wstart wstop e with
    | none => rfl
    | some ev =>
        exfalso
        have hs : (processEvent tzlocal wstart wstop e).isSome = true := by
          rw [hp]
          rfl
        have h2 := hmain.mp hs
        omega
  · intro h1 h2 h3
    exact hmain.mpr ⟨by omega, h2⟩

/-- Witness for C1: a concrete event ending exactly at the window start
is excluded. -/
theorem c1_half_open_intersection_witness :
    processEvent utcZone { wall := 0, zone := utcZone }
      { wall := usPerDay, zone := utcZone } evC1 = none :=
  (c1_half_open_intersection utcZone { wall := 0, zone := utcZone }
    { wall := usPerDay, zone := utcZone } evC1 { wall := -usPerHour, zone := none }
    rfl).2.1 (by decide)

/-- C8: when an event's end timestamp is absent, normalization
substitutes the begin timestamp, so the event is processed exactly as if
its end were its begin, and any kept normalized event has end equal to
start (the zero-duration instant). -/
theorem c8_missing_end_uses_begin (tzlocal : Zone) (wstart wstop : DT)
    (e : RawEvent) (b : TimeVal) (hb : e.begin_ = some b) (he : e.end_ = none) :
    processEvent tzlocal wstart wstop e
      = processEvent tzlocal wstart wstop
          { begin_ := some b, end_ := some b, name := e.name,
            all_day := e.all_day, location := e.location } ∧
    ∀ ev, processEvent tzlocal wstart wstop e = some ev →
      ev.t = ev.s ∧ ev.s = to_local_dt tzlocal b := by
  constructor
  · unfold processEvent
    rw [hb, he]
    rfl
  · intro ev h
    unfold processEvent at h
    rw [hb, he] at h
    have h2 : (if (DT.ltb wstart (to_local_dt tzlocal b)
          && DT.ltb (to_local_dt tzlocal b) wstop) = true then
        some { s := to_local_dt tzlocal b, t := to_local_dt tzlocal b,
               name := e.name, all_day := e.all_day, location := e.location }
      else none) = some ev := h
    split at h2
    · injection h2 with h3
      rw [← h3]
      exact ⟨rfl, rfl⟩
    · exact absurd h2 (by simp)

/-- Witness for C8: the concrete end-less 09:00 event is kept with end
equal to start. -/
theorem c8_missing_end_uses_begin_witness :
    nevC8.t = nevC8.s ∧
      nevC8.s = to_local_dt utcZone { wall := 9 * usPerHour, zone := none } :=
  (c8_missing_end_uses_begin utcZone { wall := 0, zone := utcZone }
    { wall := usPerDay, zone := utcZone } evC8 { wall := 9 * usPerHour, zone := none }
    rfl rfl).2 nevC8 rfl

/-- Prepending the nonempty banner changes the message. -/
theorem banner_changes_msg (msg : String) : ¬ (msg = bannerText ++ msg) := by
  intro h
  have hlen := congrArg String.length h
  rw [String.length_append] at hlen
  have hb : 0 < bannerText.length := by decide
  omega

/-- Truth of the Python guard `pp is not None and pp >= 50`. -/
theorem ppCond_iff (x : Option Int) : ppCond x = true ↔ ∃ v, x = some v ∧ 50 ≤ v := by
  cases x with
  | none => simp [ppCond]
  | some v => simp [ppCond]

/-- C9: when both precipitation lookups succeed, the warning banner is
prepended iff today's or tomorrow's probability is present (not null) and
at least 50; when either lookup raises, the error is swallowed and the
message is returned unchanged (no warning), never aborting assembly. -/
theorem c9_banner_iff (daily : Daily) (msg : String) :
    (((ppLookup daily 0).isNone ∨ (ppLookup daily 1).isNone) →
      applyBanner daily msg = msg) ∧
    (∀ p0 p1, ppLookup daily 0 = some p0 → ppLookup daily 1 = some p1 →
      (applyBanner daily msg = bannerText ++ msg ↔
        ((∃ v, p0 = some v ∧ 50 ≤ v) ∨ (∃ v, p1 = some v ∧ 50 ≤ v))) ∧
      (¬ ((∃ v, p0 = some v ∧ 50 ≤ v) ∨ (∃ v, p1 = some v ∧ 50 ≤ v)) →
        applyBanner daily msg = msg)) := by
  constructor
  · intro h
    unfold applyBanner
    cases hp0 : ppLookup daily 0 with
    | none => rfl
    | some p0 =>
        cases hp1 : ppLookup daily 1 with
        | none => rfl
        | some p1 =>
            exfalso
            rw [hp0, hp1] at h
            simp at h
  · intro p0 p1 hp0 hp1
    have happ : applyBanner daily msg
        = if (ppCond p0 || ppCond p1) = true then bannerText ++ msg else msg := by
      unfold applyBanner
      rw [hp0, hp1]
    rw [happ]
    have hiff : (ppCond p0 || ppCond p1) = true ↔
        ((∃ v, p0 = some v ∧ 50 ≤ v) ∨ (∃ v, p1 = some v ∧ 50 ≤ v)) := by
      rw [Bool.or_eq_true, ppCond_iff, ppCond_iff]
    by_cases hc : (ppCond p0 || ppCond p1) = true
    · rw [if_pos hc]
      refine ⟨⟨fun _ => hiff.mp hc, fun _ => rfl⟩, fun hn => absurd (hiff.mp hc) hn⟩
    · rw [if_neg hc]
      refine ⟨⟨fun h => absurd h (banner_changes_msg msg), fun h => absurd (hiff.mpr h) hc⟩,
        fun _ => rfl⟩

/-- Witness for C9: with today's probability 80% the banner is prepended. -/
theorem c9_banner_iff_witness :
    applyBanner dailyC9 "mensaje" = bannerText ++ "mensaje" :=
  (((c9_banner_iff dailyC9 "mensaje").2 (some 80) (some 10) rfl rfl).1).mpr
    (Or.inl ⟨80, rfl, by decide⟩)

/-- The event-collection loop distributes over concatenation of the URL
list. -/
theorem collectEvents_append (net : String → Option (List RawEventData))
    (tzlocal : Zone) (wstart wstop : DT) (a b : List String) :
    collectEvents net tzlocal wstart wstop (a ++ b)
      = collectEvents net tzlocal wstart wstop a
        ++ collectEvents net tzlocal wstart wstop b := by
  induction a with
  | nil => simp [collectEvents]
  | cons raw rest ih =>
      simp only [List.cons_append, collectEvents]
      by_cases h : cleanUrl raw = ""
      · simp [h, ih]
      · cases hf : fetchSource net (cleanUrl raw) with
        | none => simp [h, hf, ih]
        | some evs => simp [h, hf, ih, List.append_assoc]

/-- A URL whose fetch or parse fails contributes nothing: the loop's
result is that of the remaining URLs. -/
theorem collectEvents_skip_of_fail (net : String → Option (List RawEventData))
    (tzlocal : Zone) (wstart wstop : DT) (pre post : List String) (u : String)
    (hf : fetchSource net (cleanUrl u) = none) :
    collectEvents net tzlocal wstart wstop (pre ++ u :: post)
      = collectEvents net tzlocal wstart wstop (pre ++ post) := by
  have hu : collectEvents net tzlocal wstart wstop (u :: post)
      = collectEvents net tzlocal wstart wstop post := by
    simp only [collectEvents]
    by_cases h : cleanUrl u = ""
    · simp [h]
    · simp [h, hf]
  rw [collectEvents_append, collectEvents_append, hu]

/-- C4: when one of the calendar sources fails to fetch or parse, the
agenda equals the agenda computed from the remaining sources alone — the
failing source is skipped and never aborts the others. -/
theorem c4_failing_source_skipped (net : String → Option (List RawEventData))
    (tzlocal : Zone) (nowWall : Int) (pre post : List String) (u : String)
    (hf : fetchSource net (cleanUrl u) = none) :
    fetch_ics_events_today net (pre ++ u :: post) tzlocal nowWall
      = fetch_ics_events_today net (pre ++ post) tzlocal nowWall := by
  simp only [fetch_ics_events_today]
  rw [collectEvents_skip_of_fail net tzlocal _ _ pre post u hf]

/-- Witness for C4: dropping the concrete failing URL "bad" leaves the
agenda unchanged. -/
theorem c4_failing_source_skipped_witness :
    fetch_ics_events_today netC4 ["good", "bad"] utcZone (12 * usPerHour)
      = fetch_ics_events_today netC4 ["good"] utcZone (12 * usPerHour) :=
  c4_failing_source_skipped netC4 utcZone (12 * usPerHour) ["good"] [] "bad" rfl

/-- A source text containing a malformed timestamp fails to parse as a
whole. -/
theorem parseCalendar_none_of_malformed {txt : List RawEventData} {e : RawEventData}
    (he : e ∈ txt)
    (hm : e.begin_ = some Stamp.malformed ∨ e.end_ = some Stamp.malformed) :
    parseCalendar txt = none := by
  induction txt with
  | nil => cases he
  | cons f rest ih =>
      rcases List.mem_cons.mp he with hef | hmem
      · subst hef
        rcases hm with hm | hm
        · simp [parseCalendar, hm, parseStamp]
        · cases hb : parseStamp e.begin_ with
          | none => simp [parseCalendar, hb]
          | some bv => simp [parseCalendar, hb, hm, parseStamp]
      · have hrest := ih hmem
        cases hb : parseStamp f.begin_ with
        | none => simp [parseCalendar, hb]
        | some bv =>
            cases ht : parseStamp f.end_ with
            | none => simp [parseCalendar, hb, ht]
            | some tv => simp [parseCalendar, hb, ht, hrest]

/-- C2 counterexample: for a successfully fetched source holding one good
event and one event with a malformed timestamp, the code produces the
empty agenda (the whole source is skipped), while the claimed per-event
drop would keep the good event — so the claim's "dropped individually"
is false on the code. -/
theorem c2_counterexample :
    fetch_ics_events_today netC2 ["u"] utcZone (12 * usPerHour) = [] ∧
    (specFetchIcsEventsToday netC2 ["u"] utcZone (12 * usPerHour)).length = 1 ∧
    fetch_ics_events_today netC2 ["u"] utcZone (12 * usPerHour)
      ≠ specFetchIcsEventsToday netC2 ["u"] utcZone (12 * usPerHour) := by
  refine ⟨rfl, rfl, ?_⟩
  intro h
  exact absurd (congrArg List.length h) (by decide)

/-- C2 (amended): a malformed timestamp in a successfully fetched source
causes that entire source to be skipped — the agenda equals the one
computed without that source (so the whole run never fails; the worst
case over all sources is an empty agenda). -/
theorem c2_malformed_drops_whole_source (net : String → Option (List RawEventData))
    (tzlocal : Zone) (nowWall : Int) (pre post : List String) (u : String)
    (txt : List RawEventData) (e : RawEventData)
    (hnet : net (cleanUrl u) = some txt) (he : e ∈ txt)
    (hm : e.begin_ = some Stamp.malformed ∨ e.end_ = some Stamp.malformed) :
    fetch_ics_events_today net (pre ++ u :: post) tzlocal nowWall
      = fetch_ics_events_today net (pre ++ post) tzlocal nowWall := by
  have hp : parseCalendar txt = none := parseCalendar_none_of_malformed he hm
  have hf : fetchSource net (cleanUrl u) = none := by
    unfold fetchSource
    rw [hnet]
    exact hp
  simp only [fetch_ics_events_today]
  rw [collectEvents_skip_of_fail net tzlocal _ _ pre post u hf]

/-- Witness for C2: the concrete source with a malformed event is skipped
whole. -/
theorem c2_malformed_drops_whole_source_witness :
    fetch_ics_events_today netC2 ["w", "u"] utcZone (12 * usPerHour)
      = fetch_ics_events_today netC2 ["w"] utcZone (12 * usPerHour) :=
  c2_malformed_drops_whole_source netC2 utcZone (12 * usPerHour) ["w"] [] "u"
    [goodData, badData] badData rfl
    (List.mem_cons_of_mem goodData (List.mem_cons_self badData []))
    (Or.inl rfl)

end ClimaAgenda
